import Mathlib

/-!
Verification of the double-buffered ADC sampling / UDP streaming firmware
(`src/main.rs` of `stm32f7-embassy-adc-eth`) against its design
specification.

The firmware's shared state and control flow are shallowly embedded:
machine integers become `Nat` (with an explicit `% 2^64` where the source's
`u64` arithmetic can wrap), the fixed-size `[u16; 1024]` sample arrays
become `List Nat`, the persistent 2048-byte `bufDouble` array becomes a
function `Nat → Nat`, and the two interacting activities — the
high-priority sampler task `run_high` and the UDP driver loop in `main` —
become explicit state-transition functions.  Since every access to the
shared buffers in the source happens inside `cortex_m::interrupt::free`
critical sections, each critical section is one atomic transition here.
-/

namespace AdcEth

/-- Constant `SYN: u8 = 22` (= 0x16), first handshake byte. -/
def SYN : Nat := 22

/-- Constant `EOT: u8 = 4` (= 0x04), second handshake byte. -/
def EOT : Nat := 4

/-- Constant `UDP_PORT: u16 = 15180`, the fixed listening port. -/
def UDP_PORT : Nat := 15180

/-- Constant `ADC_BUFFER_SIZE: usize = 1024`, the batch size N. -/
def ADC_BUFFER_SIZE : Nat := 1024

/-- Constant `UDP_BUFFER_SIZE: usize = ADC_BUFFER_SIZE * 2`. -/
def UDP_BUFFER_SIZE : Nat := ADC_BUFFER_SIZE * 2

/-- Constant `ADC_CYCLE: u64 = 5925`, the sampler cadence in µs. -/
def ADC_CYCLE : Nat := 5925

/-- The shared double-buffer state of the firmware:
`ADC_DONE: AtomicBool`, `ACT_BUFFER: AtomicUsize` (initially 1), and the
two sample arrays `BUFFER1`, `BUFFER2` (each `[u16; ADC_BUFFER_SIZE]`,
entries are u16 ADC readings, i.e. naturals below 65536). -/
structure BufState where
  adcDone : Bool
  actBuffer : Nat
  buffer1 : List Nat
  buffer2 : List Nat
deriving Repr, DecidableEq

/-- The startup state: `ADC_DONE = false`, `ACT_BUFFER = 1`, both buffers
zero-filled (`[0; ADC_BUFFER_SIZE]`). -/
def initBufState : BufState :=
  { adcDone := false
    actBuffer := 1
    buffer1 := List.replicate ADC_BUFFER_SIZE 0
    buffer2 := List.replicate ADC_BUFFER_SIZE 0 }

/-- One iteration of the critical section of the sampler task `run_high`:
`act` is a local variable re-initialised to 1 on every iteration (the
inner `loop` that would have made it alternate is commented out in the
source), the batch of fresh ADC samples is written into the buffer
selected by `act` (`match act { 1 => b1, _ => b2 }`), then
`ACT_BUFFER` receives the other index
(`match act { 1 => store 2, _ => store 1 }`), and finally
`ADC_DONE.store(true)`.  `samples` stands for the `ADC_BUFFER_SIZE`
values read from the ADC during this cycle; this transition is the
spec's `commit`. -/
def run_high_commit (samples : List Nat) (s : BufState) : BufState :=
  let act : Nat := 1
  let sFilled :=
    if act = 1 then { s with buffer1 := samples }
    else { s with buffer2 := samples }
  let sSwapped :=
    if act = 1 then { sFilled with actBuffer := 2 }
    else { sFilled with actBuffer := 1 }
  { sSwapped with adcDone := true }

/-- The buffer the transmitter reads inside its critical section:
`match ACT_BUFFER.load { 1 => b2, _ => b1 }`. -/
def readBuffer (s : BufState) : List Nat :=
  if s.actBuffer = 1 then s.buffer2 else s.buffer1

/-- The transmitter's attempt to obtain a completed batch (the spec's
`try_take_ready`): the loop in `main` proceeds only once `ADC_DONE` is
true and then reads `readBuffer` inside a critical section.  That
section stores to neither `ADC_DONE` nor `ACT_BUFFER`, so the shared
`BufState` comes back unchanged — in particular the done flag is NOT
cleared.  (The serialization target `bufDouble` is not part of
`BufState`; it is tracked in `SysState` below.) -/
def takeStep (s : BufState) : Option (List Nat) × BufState :=
  if s.adcDone then (some (readBuffer s), s) else (none, s)

/-- Modulus of the source's `u64` arithmetic, 2^64. -/
def U64 : Nat := 18446744073709551616

/-- Wrapping `u64` subtraction `a - b` (the firmware is built without
overflow checks, so `u64` subtraction wraps modulo 2^64). -/
def wrap_sub (a b : Nat) : Nat := (a % U64 + U64 - b % U64) % U64

/-- The suspension at the end of a sampler cycle whose work (critical
section included) took `elapsed` µs:
`t = ADC_CYCLE - elapsed` in wrapping u64 arithmetic, and
`if t < ADC_CYCLE { Timer::after(Duration::from_micros(ADC_CYCLE)).await }`
— the timer is a FULL `ADC_CYCLE`; the remainder-delay `delay_us(t)` is
commented out in the source.  Returns the number of µs the task
suspends. -/
def run_high_delay (elapsed : Nat) : Nat :=
  let t := wrap_sub ADC_CYCLE elapsed
  if t < ADC_CYCLE then ADC_CYCLE else 0

/-- Total duration of one sampler cycle whose work took `elapsed` µs. -/
def run_high_period (elapsed : Nat) : Nat :=
  elapsed + run_high_delay elapsed

/-- Control location of the UDP driver loop in `main`:
`binding` = at the top of the outer bind loop, `awaitingHandshake` =
inside the middle loop waiting on `recv_from`, `streaming remote` =
inside the inner transmit loop with the recorded remote endpoint
(endpoints are abstracted as `Nat` identifiers). -/
inductive Loc where
  | binding
  | awaitingHandshake
  | streaming (remote : Nat)
deriving Repr, DecidableEq

/-- Environment events driving one step of the UDP driver: the outcome
of a bind attempt, the outcome of a `recv_from`, the outcome of one
transmit-loop iteration's `send_to` (or the socket being found closed),
a poll of the done flag, and a preemption by the sampler's critical
section (`adcCommit`). -/
inductive Ev where
  | bindOk
  | bindErr
  | recvOk (d : List Nat) (sender : Nat)
  | recvErr
  | sendOk
  | sendErr
  | socketClosed
  | poll
  | adcCommit (samples : List Nat)
deriving Repr, DecidableEq

/-- Observable actions a driver step emits: a datagram handed to the
transport, or a timer suspension of the given number of µs. -/
inductive Action where
  | sendTo (datagram : List Nat) (ep : Nat)
  | delayUs (us : Nat)
deriving Repr, DecidableEq

/-- Number of timer suspensions among a step's emitted actions. -/
def delayCount (acts : List Action) : Nat :=
  (acts.filter fun a => match a with
    | .delayUs _ => true
    | _ => false).length

/-- The whole driver-visible state: control location, the number of
successful binds so far (`gen` identifies the currently bound socket;
a rebind would increment it), the persistent receive/serialize array
`bufDouble`, and the shared double-buffer state. -/
structure SysState where
  loc : Loc
  gen : Nat
  bufDouble : Nat → Nat
  adc : BufState

/-- Effect of `socket.recv_from(&mut bufDouble)` on the persistent
buffer: the datagram's bytes overwrite the first
`min d.length UDP_BUFFER_SIZE` cells (the transport truncates to the
buffer's capacity); every other cell keeps its residual value.  The
returned byte count is bound to `_n` by the caller and discarded. -/
def recvInto (buf : Nat → Nat) (d : List Nat) : Nat → Nat :=
  fun i => if i < min d.length UDP_BUFFER_SIZE then d.getD i 0 else buf i

/-- Function `handshakeReceived(buf: &[u8; UDP_BUFFER_SIZE])` of the
source: `buf[0] == SYN && buf[1] == EOT` — it inspects the first two
cells of the PERSISTENT buffer, not the received datagram. -/
def handshakeReceived (buf : Nat → Nat) : Bool :=
  buf 0 == SYN && buf 1 == EOT

/-- Big-endian serialization of a sample buffer, the loop
`bytes = buffer[i].to_be_bytes(); bufDouble[2i] = bytes[0];
bufDouble[2i+1] = bytes[1]`: for a u16 value `v`, `to_be_bytes` is
`[v / 256, v % 256]`. -/
def serializeBuffer : List Nat → List Nat
  | [] => []
  | v :: rest => v / 256 :: v % 256 :: serializeBuffer rest

/-- Overwrite the leading cells of a byte array with the given bytes
(the serialization loop writes `bytes.length = 2 * ADC_BUFFER_SIZE =
UDP_BUFFER_SIZE` cells, i.e. the whole of `bufDouble`). -/
def writeBytes (buf : Nat → Nat) (bytes : List Nat) : Nat → Nat :=
  fun i => if i < bytes.length then bytes.getD i 0 else buf i

/-- One step of the UDP driver of `main`, from the source's three nested
loops.  `none` models a panic (abnormal termination): the only abnormal
exit in the subsystem is the `.unwrap()` on `recv_from` while waiting
for a handshake.  Transitions:
* `binding` + bind ok → `awaitingHandshake` on a fresh socket (`gen`+1);
* `binding` + bind error → `continue`: retry the bind immediately, with
  no delay action;
* `awaitingHandshake` + datagram → overwrite `bufDouble`, discard the
  byte count, test `handshakeReceived` on the persistent buffer; on a
  match enter `streaming sender`, otherwise stay (no reply is sent in
  either case);
* `awaitingHandshake` + receive error → `.unwrap()` panics;
* `streaming` + poll with `ADC_DONE` still false → suspend for
  `ADC_CYCLE / 2` µs and stay;
* `streaming` + send outcome (reachable once `ADC_DONE` is true):
  serialize the read buffer into `bufDouble`, attempt the single
  `send_to`; on success stay `streaming`, on a send error or a closed
  socket `break` out of the transmit loop back to `awaitingHandshake`
  on the SAME socket (`gen` unchanged, the outer bind loop is not
  re-entered);
* a sampler preemption `adcCommit` applies `run_high_commit` to the
  shared state in any location. -/
def driverStep (s : SysState) : Ev → Option (SysState × List Action)
  | .bindOk =>
    match s.loc with
    | .binding => some ({ s with loc := .awaitingHandshake, gen := s.gen + 1 }, [])
    | _ => some (s, [])
  | .bindErr =>
    match s.loc with
    | .binding => some (s, [])
    | _ => some (s, [])
  | .recvOk d sender =>
    match s.loc with
    | .awaitingHandshake =>
      let buf := recvInto s.bufDouble d
      if handshakeReceived buf then
        some ({ s with loc := .streaming sender, bufDouble := buf }, [])
      else
        some ({ s with bufDouble := buf }, [])
    | _ => some (s, [])
  | .recvErr =>
    match s.loc with
    | .awaitingHandshake => none
    | _ => some (s, [])
  | .poll =>
    match s.loc with
    | .streaming _ =>
      if s.adc.adcDone then some (s, [])
      else some (s, [.delayUs (ADC_CYCLE / 2)])
    | _ => some (s, [])
  | .sendOk =>
    match s.loc with
    | .streaming r =>
      if s.adc.adcDone then
        some ({ s with bufDouble := writeBytes s.bufDouble (serializeBuffer (readBuffer s.adc)) },
          [.sendTo (serializeBuffer (readBuffer s.adc)) r])
      else some (s, [.delayUs (ADC_CYCLE / 2)])
    | _ => some (s, [])
  | .sendErr =>
    match s.loc with
    | .streaming r =>
      if s.adc.adcDone then
        some ({ s with loc := .awaitingHandshake
                       bufDouble := writeBytes s.bufDouble (serializeBuffer (readBuffer s.adc)) },
          [.sendTo (serializeBuffer (readBuffer s.adc)) r])
      else some (s, [.delayUs (ADC_CYCLE / 2)])
    | _ => some (s, [])
  | .socketClosed =>
    match s.loc with
    | .streaming _ =>
      if s.adc.adcDone then
        some ({ s with loc := .awaitingHandshake
                       bufDouble := writeBytes s.bufDouble (serializeBuffer (readBuffer s.adc)) }, [])
      else some (s, [.delayUs (ADC_CYCLE / 2)])
    | _ => some (s, [])
  | .adcCommit samples => some ({ s with adc := run_high_commit samples s.adc }, [])

/-- A concrete full first batch (1024 samples of value 5). -/
def l1c : List Nat := List.replicate ADC_BUFFER_SIZE 5

/-- A concrete full second batch (1024 samples of value 7). -/
def l2c : List Nat := List.replicate ADC_BUFFER_SIZE 7

/-- A concrete driver state waiting for a handshake on socket 1 with a
zeroed persistent buffer. -/
def sAwait : SysState :=
  { loc := .awaitingHandshake, gen := 1, bufDouble := fun _ => 0, adc := initBufState }

/-- A concrete driver state at the top of the bind loop. -/
def sBind : SysState :=
  { loc := .binding, gen := 0, bufDouble := fun _ => 0, adc := initBufState }

/-- A concrete streaming state (remote endpoint 7, one completed batch). -/
def sC7 : SysState :=
  { loc := .streaming 7, gen := 3, bufDouble := fun _ => 0
    adc := run_high_commit l1c initBufState }

/-- A residual persistent buffer whose first two cells happen to hold
the handshake bytes (as they would after serializing a batch whose
first sample is 0x1604 = 5636). -/
def residBuf : Nat → Nat :=
  fun i => if i = 0 then 22 else if i = 1 then 4 else 0

/-- A concrete driver state back at `awaitingHandshake` with handshake
bytes left over in the persistent buffer. -/
def sResid : SysState :=
  { loc := .awaitingHandshake, gen := 1, bufDouble := residBuf, adc := initBufState }

/-- Claim C1 fails on the code: after a single batch completion, the first
take returns the batch AND a second consecutive take (no intervening
commit) again returns the batch rather than `none`, because nothing ever
stores `false` into `ADC_DONE`. -/
theorem C1_counterexample :
    (takeStep (run_high_commit l1c initBufState)).1 = some l1c ∧
    (takeStep (takeStep (run_high_commit l1c initBufState)).2).1 = some l1c ∧
    (takeStep (takeStep (run_high_commit l1c initBufState)).2).1 ≠ none :=
  ⟨rfl, rfl, by simp [takeStep, run_high_commit, readBuffer]⟩

/-- C1 (amended): the ready flag `ADC_DONE` is set by a batch completion
but is never cleared by the Transmitter; consecutive `try_take_ready`
calls with no intervening commit therefore ALL return the completed
batch — the second call does not return `None`, and a batch can be
transmitted more than once. -/
theorem C1_flag_never_cleared (s : BufState) (b : List Nat) :
    (takeStep (run_high_commit b s)).1 = some b ∧
    (takeStep (run_high_commit b s)).2 = run_high_commit b s ∧
    (takeStep (takeStep (run_high_commit b s)).2).1 = some b := by
  refine ⟨?_, ?_, ?_⟩ <;> simp [takeStep, run_high_commit, readBuffer]

/-- Claim C2 fails on the code: a second commit leaves `ACT_BUFFER` at 2
(the index is constantly stored, never flipped), after a commit the
Transmitter reads `buffer1`, and the Sampler's next fill again writes
`buffer1` — the very buffer marked ready-and-unread — while `buffer2` is
never written at all. -/
theorem C2_counterexample :
    (run_high_commit l1c initBufState).actBuffer = 2 ∧
    (run_high_commit l2c (run_high_commit l1c initBufState)).actBuffer = 2 ∧
    readBuffer (run_high_commit l1c initBufState) =
      (run_high_commit l1c initBufState).buffer1 ∧
    (run_high_commit l1c initBufState).adcDone = true ∧
    (run_high_commit l2c (run_high_commit l1c initBufState)).buffer1 = l2c ∧
    (run_high_commit l2c (run_high_commit l1c initBufState)).buffer2 =
      initBufState.buffer2 :=
  ⟨rfl, rfl, rfl, rfl, rfl, rfl⟩

/-- C2 (amended): `commit` does not flip the active/ready indices — every
commit fills `buffer1`, stores the constant 2 into `ACT_BUFFER` and
leaves `buffer2` untouched; consequently after any commit the
Transmitter reads `buffer1`, the same buffer the Sampler's next commit
overwrites.  (The accesses are still serialized, because both sides run
inside `interrupt::free` critical sections.) -/
theorem C2_no_flip (s : BufState) (b c : List Nat) :
    (run_high_commit b s).actBuffer = 2 ∧
    (run_high_commit b s).buffer1 = b ∧
    (run_high_commit b s).buffer2 = s.buffer2 ∧
    readBuffer (run_high_commit b s) = b ∧
    (run_high_commit c (run_high_commit b s)).buffer1 = c ∧
    (run_high_commit c (run_high_commit b s)).actBuffer = 2 := by
  refine ⟨?_, ?_, ?_, ?_, ?_, ?_⟩ <;> simp [run_high_commit, readBuffer]

/-- Claim C3 fails on the code: with elapsed work of 100 µs the end-of-cycle
suspension is a full `ADC_CYCLE` (5925 µs), not the remainder 5825 µs;
and with elapsed work of 0 µs (`t = ADC_CYCLE`, which is not
`< ADC_CYCLE`) there is no suspension at all, so the cycle period is 0,
not `ADC_CYCLE` — the zero-drift cadence scenario fails. -/
theorem C3_counterexample :
    run_high_delay 100 = ADC_CYCLE ∧
    run_high_delay 100 ≠ ADC_CYCLE - 100 ∧
    run_high_period 0 = 0 ∧
    run_high_period 0 ≠ ADC_CYCLE := by
  decide

/-- C3 (amended): at the end of a cycle whose work took `elapsed` µs the
Sampler suspends for a full `ADC_CYCLE` — not the remainder — exactly
when `0 < elapsed ≤ ADC_CYCLE`, and proceeds immediately otherwise
(`elapsed = 0` makes `t = ADC_CYCLE`, failing the `t < ADC_CYCLE` test,
and an overrun wraps `t` around 2^64); hence with a sample-read cost of
0 the cycle period is 0, so commits do not occur every `ADC_CYCLE`. -/
theorem C3_full_cycle_delay (e : Nat) (h : e < U64) :
    run_high_delay e = (if 0 < e ∧ e ≤ ADC_CYCLE then ADC_CYCLE else 0) ∧
    run_high_period 0 = 0 := by
  constructor
  · simp only [run_high_delay, wrap_sub, ADC_CYCLE, U64] at h ⊢
    by_cases h1 : 0 < e ∧ e ≤ 5925
    · rw [if_pos h1, if_pos (by omega)]
    · rw [if_neg h1, if_neg (by omega)]
  · decide

/-- Witness for the amended C3 at `elapsed = 100`: the suspension is the
full 5925 µs cycle. -/
theorem C3_witness : 100 < U64 ∧ run_high_delay 100 = ADC_CYCLE := by
  refine ⟨by decide, ?_⟩
  have h := (C3_full_cycle_delay 100 (by decide)).1
  rw [h, if_pos (by decide)]

/-- C4: last value wins.  After two commits with no intervening take, a
take returns exactly the second batch, and the state after the two
commits does not depend on the first batch at all — the first batch is
unobservable. -/
theorem C4_last_value_wins (s : BufState) (b1 b2 : List Nat) :
    (takeStep (run_high_commit b2 (run_high_commit b1 s))).1 = some b2 ∧
    run_high_commit b2 (run_high_commit b1 s) = run_high_commit b2 s := by
  refine ⟨?_, ?_⟩ <;> simp [takeStep, run_high_commit, readBuffer]

/-- The serialized batch has twice as many bytes as the batch has
samples. -/
theorem serializeBuffer_length (l : List Nat) :
    (serializeBuffer l).length = 2 * l.length := by
  induction l with
  | nil => rfl
  | cons v rest ih =>
    simp only [serializeBuffer, List.length_cons, ih]
    omega

/-- The serialized bytes at positions `2i` and `2i+1` are the big-endian
byte pair of sample `i`. -/
theorem serializeBuffer_get (l : List Nat) (i : Nat) :
    (serializeBuffer l).get? (2 * i) = (l.get? i).map (fun v => v / 256) ∧
    (serializeBuffer l).get? (2 * i + 1) = (l.get? i).map (fun v => v % 256) := by
  induction l generalizing i with
  | nil => simp [serializeBuffer]
  | cons v rest ih =>
    cases i with
    | zero => simp [serializeBuffer]
    | succ j =>
      have h2 : 2 * (j + 1) = 2 * j + 1 + 1 := by omega
      rw [h2]
      simp only [serializeBuffer, List.get?_cons_succ]
      exact ⟨(ih j).1, (ih j).2⟩

/-- C5: a batch of `ADC_BUFFER_SIZE` u16 samples serializes to exactly
`UDP_BUFFER_SIZE = 2 * ADC_BUFFER_SIZE` bytes, in acquisition order,
such that the byte pair at positions `(2i, 2i+1)` is the big-endian
encoding of sample `i` (both cells are bytes and decode back to the
sample), and the datagram handed to the transport by a transmit
iteration is exactly this serialization. -/
theorem C5_serialization (l : List Nat)
    (hval : ∀ v ∈ l, v < 65536) (hlen : l.length = ADC_BUFFER_SIZE) :
    (serializeBuffer l).length = UDP_BUFFER_SIZE ∧
    (∀ i v, l.get? i = some v →
      (serializeBuffer l).get? (2 * i) = some (v / 256) ∧
      (serializeBuffer l).get? (2 * i + 1) = some (v % 256) ∧
      (v / 256) * 256 + v % 256 = v ∧ v / 256 < 256 ∧ v % 256 < 256) ∧
    (∀ (st : SysState) (r : Nat), st.loc = Loc.streaming r →
      st.adc.adcDone = true → readBuffer st.adc = l →
      driverStep st Ev.sendOk =
        some ({ st with bufDouble := writeBytes st.bufDouble (serializeBuffer l) },
          [Action.sendTo (serializeBuffer l) r])) := by
  refine ⟨?_, ?_, ?_⟩
  · rw [serializeBuffer_length, hlen]
    decide
  · intro i v hv
    have hg := serializeBuffer_get l i
    have hvmem : v ∈ l := List.get?_mem hv
    have hv16 : v < 65536 := hval v hvmem
    refine ⟨?_, ?_, ?_, ?_, ?_⟩
    · rw [hg.1, hv]; rfl
    · rw [hg.2, hv]; rfl
    · omega
    · omega
    · omega
  · intro st r hloc hdone hread
    simp [driverStep, hloc, hdone, hread]

/-- Witness for C5 on a concrete full batch of 1024 samples of value
5636 = 0x1604: 2048 serialized bytes. -/
theorem C5_witness :
    (List.replicate 1024 5636).length = ADC_BUFFER_SIZE ∧
    (serializeBuffer (List.replicate 1024 5636)).length = UDP_BUFFER_SIZE := by
  have hlen : (List.replicate 1024 5636).length = ADC_BUFFER_SIZE := by
    rw [List.length_replicate]
    rfl
  have hval : ∀ v ∈ List.replicate 1024 5636, v < 65536 := by
    intro v hv
    have := List.eq_of_mem_replicate hv
    omega
  exact ⟨hlen, (C5_serialization (List.replicate 1024 5636) hval hlen).1⟩

/-- C6: while awaiting a handshake, a datagram of at least two bytes
whose first two bytes are `SYN, EOT` moves the session to `Streaming`
with the sender recorded as the remote endpoint; a datagram of at least
two bytes whose first two bytes differ leaves the session awaiting the
handshake, merely overwriting the scratch buffer, and neither case
emits any reply. -/
theorem C6_handshake (st : SysState) (d : List Nat) (sender : Nat)
    (hloc : st.loc = Loc.awaitingHandshake) (hd : 2 ≤ d.length) :
    (d.getD 0 0 = SYN ∧ d.getD 1 0 = EOT →
      driverStep st (Ev.recvOk d sender) =
        some ({ st with
                  loc := Loc.streaming sender,
                  bufDouble := recvInto st.bufDouble d }, [])) ∧
    (¬(d.getD 0 0 = SYN ∧ d.getD 1 0 = EOT) →
      driverStep st (Ev.recvOk d sender) =
        some ({ st with bufDouble := recvInto st.bufDouble d }, [])) := by
  have hm0 : (0 : Nat) < min d.length UDP_BUFFER_SIZE := by
    have hu : UDP_BUFFER_SIZE = 2048 := rfl
    omega
  have hm1 : (1 : Nat) < min d.length UDP_BUFFER_SIZE := by
    have hu : UDP_BUFFER_SIZE = 2048 := rfl
    omega
  have h0 : recvInto st.bufDouble d 0 = d.getD 0 0 := by
    simp only [recvInto, if_pos hm0]
  have h1 : recvInto st.bufDouble d 1 = d.getD 1 0 := by
    simp only [recvInto, if_pos hm1]
  constructor
  · rintro ⟨e0, e1⟩
    have hh : handshakeReceived (recvInto st.bufDouble d) = true := by
      simp only [handshakeReceived, h0, h1, e0, e1]
      rfl
    simp [driverStep, hloc, hh]
  · intro hne
    have hh : handshakeReceived (recvInto st.bufDouble d) = false := by
      simp only [handshakeReceived, h0, h1]
      cases hb : (d.getD 0 0 == SYN && d.getD 1 0 == EOT) with
      | false => rfl
      | true =>
        rw [Bool.and_eq_true, beq_iff_eq, beq_iff_eq] at hb
        exact absurd hb hne
    simp [driverStep, hloc, hh]

/-- Witness for C6: from a concrete awaiting state, the datagram
`[22, 4, 9]` enters streaming with the sender, endpoint 8, recorded. -/
theorem C6_witness :
    driverStep sAwait (Ev.recvOk [22, 4, 9] 8) =
      some ({ sAwait with
                loc := Loc.streaming 8,
                bufDouble := recvInto sAwait.bufDouble [22, 4, 9] }, []) :=
  (C6_handshake sAwait [22, 4, 9] 8 rfl (by decide)).1 (by decide)

/-- C7: in a streaming session with a completed batch pending, a send
error makes the transmit iteration emit its single send attempt and fall
back to `awaitingHandshake` — the record update touches neither `gen`
(the bound socket) nor anything that would re-run the bind, and no
second send of the batch is attempted. -/
theorem C7_send_error_teardown (st : SysState) (r : Nat)
    (hloc : st.loc = Loc.streaming r) (hdone : st.adc.adcDone = true) :
    driverStep st Ev.sendErr =
      some ({ st with
                loc := Loc.awaitingHandshake,
                bufDouble := writeBytes st.bufDouble (serializeBuffer (readBuffer st.adc)) },
        [Action.sendTo (serializeBuffer (readBuffer st.adc)) r]) := by
  simp [driverStep, hloc, hdone]

/-- Witness for C7 on a concrete streaming state (remote endpoint 7,
socket generation 3). -/
theorem C7_witness :
    sC7.adc.adcDone = true ∧
    driverStep sC7 Ev.sendErr =
      some ({ sC7 with
                loc := Loc.awaitingHandshake,
                bufDouble := writeBytes sC7.bufDouble (serializeBuffer (readBuffer sC7.adc)) },
        [Action.sendTo (serializeBuffer (readBuffer sC7.adc)) 7]) :=
  ⟨rfl, C7_send_error_teardown sC7 7 rfl rfl⟩

/-- Claim C8 fails on the code: a receive failure while waiting for a
datagram is NOT handled — `recv_from(...).unwrap()` panics, modeled as
the step returning `none` (abnormal termination) from a concrete
awaiting state. -/
theorem C8_counterexample : driverStep sAwait Ev.recvErr = none := rfl

/-- C8 (amended): the only fatal transition in the subsystem is a
receive failure while waiting for a datagram (the `.unwrap()` on
`recv_from`); every other transport failure — bind error, send error,
closed socket — is handled by the retry structure and never terminates
the process abnormally. -/
theorem C8_only_recv_failure_fatal (st : SysState) (e : Ev) :
    driverStep st e = none ↔ e = Ev.recvErr ∧ st.loc = Loc.awaitingHandshake := by
  cases e <;> cases hl : st.loc <;> simp [driverStep, hl] <;> split <;> simp

/-- Claim C9 fails on the code: a failed bind at the top of the outer
loop is retried (the state returns to `binding`, not fatal) but via a
bare `continue` — the step emits no action at all, in particular zero
timer suspensions, so no delay precedes the retry. -/
theorem C9_counterexample :
    driverStep sBind Ev.bindErr = some (sBind, []) ∧ delayCount [] = 0 :=
  ⟨rfl, rfl⟩

/-- C9 (amended): a bind failure is never fatal and is retried
indefinitely — the driver stays at the top of the bind loop with its
state intact — but the retry is immediate: the failing step emits no
delay (no action whatsoever) before the next bind attempt. -/
theorem C9_immediate_retry (st : SysState) (h : st.loc = Loc.binding) :
    driverStep st Ev.bindErr = some (st, []) := by
  simp [driverStep, h]

/-- Witness for the amended C9 on a concrete state at the top of the
bind loop. -/
theorem C9_witness :
    sBind.loc = Loc.binding ∧ driverStep sBind Ev.bindErr = some (sBind, []) :=
  ⟨rfl, C9_immediate_retry sBind rfl⟩

/-- C10: handshake acceptance is decided on the first two cells of the
persistent buffer, not on the received datagram — the byte count is
discarded — so an EMPTY datagram is accepted as a handshake whenever
residual cells 0 and 1 (e.g. left over from an earlier receive or an
earlier serialized batch) hold `SYN, EOT`; moreover any serialized
batch whose first sample is 0x1604 = 5636 leaves exactly those two
bytes at the front of the buffer. -/
theorem C10_residual_handshake (st : SysState) (sender : Nat)
    (hloc : st.loc = Loc.awaitingHandshake)
    (h0 : st.bufDouble 0 = SYN) (h1 : st.bufDouble 1 = EOT) :
    driverStep st (Ev.recvOk [] sender) =
      some ({ st with
              loc := Loc.streaming sender,
              bufDouble := recvInto st.bufDouble [] }, []) ∧
    (∀ rest : List Nat, (serializeBuffer (5636 :: rest)).take 2 = [SYN, EOT]) := by
  constructor
  · have hb0 : recvInto st.bufDouble [] 0 = st.bufDouble 0 := by
      simp [recvInto]
    have hb1 : recvInto st.bufDouble [] 1 = st.bufDouble 1 := by
      simp [recvInto]
    have hh : handshakeReceived (recvInto st.bufDouble []) = true := by
      simp only [handshakeReceived, hb0, hb1, h0, h1]
      rfl
    simp [driverStep, hloc, hh]
  · intro rest
    simp only [serializeBuffer, List.take_succ_cons, List.take_zero]
    rfl

/-- Witness for C10: a concrete awaiting state whose persistent buffer
still holds 22, 4 in cells 0, 1 accepts an empty datagram from endpoint
9 and starts streaming to it. -/
theorem C10_witness :
    driverStep sResid (Ev.recvOk [] 9) =
      some ({ sResid with
              loc := Loc.streaming 9,
              bufDouble := recvInto sResid.bufDouble [] }, []) :=
  (C10_residual_handshake sResid 9 rfl rfl rfl).1

end AdcEth
